import Mathlib

/-!
Verification of the nuview Table widget's layout, scrolling and selection
engine (files `screenutil.go` / `table.go` of sedwards2009/nuview).

The Go code is shallowly embedded: Go `int` becomes `Int`, Go slices become
`List`, a possibly-nil `*TableCell` becomes `Option TableCell`, and a Go
function that can panic returns an `Option` (with `none` marking the panic).
Loops of the source are written as recursions whose Nat argument is the
exact number of remaining iterations allowed by the loop's exit condition
(so the recursion stops precisely where the Go loop stops); the two
navigation scan loops, which can genuinely diverge in Go, take an explicit
fuel and return `none` when it is exhausted.
-/

namespace NuviewTable

/-- insertAtIdx l i a places a before position i of l; this is the net effect
of the Go idiom append / copy-shift / assign used by InsertRow and
InsertColumn (for i ≤ l.length). -/
def insertAtIdx (l : List α) (i : Nat) (a : α) : List α :=
  l.take i ++ a :: l.drop i

/-- removeAtIdx l i drops position i of l; this is the net effect of the Go
idiom append(l[:i], l[i+1:]...) used by RemoveRow and RemoveColumn. -/
def removeAtIdx (l : List α) (i : Nat) : List α :=
  l.take i ++ l.drop (i + 1)

/-- TableCell mirrors the fields of the Go TableCell struct that the layout,
scrolling and selection engine reads. `width` is the cached effective width
field maintained by updateWidth; text measurement itself is an external
capability, so `width` is carried as data. The zero value `{}` is the Go
`TableCell{}` (note NotSelectable = false: a default cell is selectable). -/
structure TableCell where
  Text : String := ""
  MaxWidth : Int := 0
  Expansion : Int := 0
  NotSelectable : Bool := false
  width : Int := 0
deriving Repr, DecidableEq

/-- setExpansion models TableCell.SetExpansion. The Go method panics when the
argument is negative, before the assignment, so the cell is unmodified; the
Bool result records whether the panic fired. -/
def TableCell.setExpansion (expansion : Int) (c : TableCell) : TableCell × Bool :=
  if expansion < 0 then (c, true)
  else ({ c with Expansion := expansion }, false)

/-- TableContent mirrors tableDefaultContent: rows of possibly-nil cell
pointers, plus the tracked rightmost column index (-1 when nothing was ever
set). A Go nil row is the empty list. -/
structure TableContent where
  cells : List (List (Option TableCell)) := []
  lastColumn : Int := -1
deriving Repr, DecidableEq

/-- getCell mirrors tableDefaultContent.GetCell: out-of-range indices give
nil; in range, the stored pointer (itself possibly nil) is returned. -/
def TableContent.getCell (t : TableContent) (row column : Int) : Option TableCell :=
  if row < 0 ∨ column < 0 ∨ row ≥ (t.cells.length : Int)
      ∨ column ≥ (((t.cells.getD row.toNat []).length : Nat) : Int) then
    none
  else
    (t.cells.getD row.toNat []).getD column.toNat none

/-- getRowCount mirrors GetRowCount: the number of rows. -/
def TableContent.getRowCount (t : TableContent) : Int :=
  (t.cells.length : Int)

/-- getColumnCount mirrors GetColumnCount: 0 for an empty table, otherwise
lastColumn + 1. -/
def TableContent.getColumnCount (t : TableContent) : Int :=
  if t.cells.length = 0 then 0 else t.lastColumn + 1

/-- removeRow mirrors RemoveRow: out of range (including negative) is a
no-op, otherwise the row is shift-compacted away. -/
def TableContent.removeRow (row : Int) (t : TableContent) : TableContent :=
  if row < 0 ∨ row ≥ (t.cells.length : Int) then t
  else { t with cells := removeAtIdx t.cells row.toNat }

/-- removeColumn mirrors RemoveColumn: each row for which the index is in
range is shift-compacted; lastColumn is decremented when 0 ≤ column ≤
lastColumn. -/
def TableContent.removeColumn (column : Int) (t : TableContent) : TableContent :=
  { cells := t.cells.map (fun r =>
      if column < 0 ∨ column ≥ ((r.length : Nat) : Int) then r
      else removeAtIdx r column.toNat),
    lastColumn :=
      if 0 ≤ column ∧ column ≤ t.lastColumn then t.lastColumn - 1 else t.lastColumn }

/-- insertRow mirrors InsertRow. row ≥ rowCount returns unchanged (the
guard); then the Go code runs copy(cells[row+1:], cells[row:]), which for a
negative row is a slice-bounds panic, modelled as `none`; otherwise an
empty (nil) row is inserted. -/
def TableContent.insertRow (row : Int) (t : TableContent) : Option TableContent :=
  if row ≥ (t.cells.length : Int) then some t
  else if row < 0 then none
  else some { t with cells := insertAtIdx t.cells row.toNat [] }

/-- insertColumn mirrors InsertColumn. Rows shorter than the index are
skipped; in a row that is long enough the Go code runs
copy(row[column+1:], row[column:]), which for a negative column is a
slice-bounds panic (it fires on the first row, since no row is shorter than
a negative index), modelled as `none`; otherwise a fresh default cell is
inserted. lastColumn is not touched. -/
def TableContent.insertColumn (column : Int) (t : TableContent) : Option TableContent :=
  if column < 0 then
    if t.cells.isEmpty then some t else none
  else
    some { t with cells := t.cells.map (fun r =>
      if ((r.length : Nat) : Int) ≤ column then r
      else insertAtIdx r column.toNat (some {})) }

/-- Table mirrors the fields of the Go Table struct used by the offset,
layout and navigation code. Callbacks and styling are outside the core. -/
structure Table where
  content : TableContent := {}
  fixedRows : Int := 0
  fixedColumns : Int := 0
  rowsSelectable : Bool := false
  columnsSelectable : Bool := false
  selectedRow : Int := 0
  selectedColumn : Int := 0
  clampToSelection : Bool := false
  wrapHorizontally : Bool := false
  wrapVertically : Bool := false
  rowOffset : Int := 0
  columnOffset : Int := 0
  xScroll : Int := 0
  trackEnd : Bool := false
  visibleRows : Int := 0
  borders : Bool := false
deriving Repr, DecidableEq

/-- setFixed mirrors Table.SetFixed: stores the fixed counts and resets
columnOffset to 0. -/
def Table.setFixed (t : Table) (rows columns : Int) : Table :=
  { t with fixedRows := rows, fixedColumns := columns, columnOffset := 0 }

/-- select mirrors Table.Select without its callback: stores the selection
and arms the one-shot clampToSelection flag. -/
def Table.select (t : Table) (row column : Int) : Table :=
  { t with selectedRow := row, selectedColumn := column, clampToSelection := true }

/-- setOffset mirrors Table.SetOffset: stores both offsets and cancels
trackEnd. -/
def Table.setOffset (t : Table) (row column : Int) : Table :=
  { t with rowOffset := row, columnOffset := column, trackEnd := false }

/-- setXScroll mirrors Table.SetXScroll: stores the pixel offset, switches
columnOffset to the -1 sentinel and cancels trackEnd. -/
def Table.setXScroll (t : Table) (x : Int) : Table :=
  { t with xScroll := x, columnOffset := -1, trackEnd := false }

/-- calculateColumnWidths mirrors Table.calculateColumnWidths: for every
column index the maximum cached cell width over all rows (nil cells are
skipped, so an empty column has width 0). -/
def Table.calculateColumnWidths (t : Table) : List Int :=
  (List.range t.content.getColumnCount.toNat).map (fun i =>
    (List.range t.content.getRowCount.toNat).foldl (fun m j =>
      match t.content.getCell (j : Int) (i : Int) with
      | some cell => max m cell.width
      | none => m) 0)

/-- effectiveColumnsWidth mirrors Table.effectiveColumnsWidth: the sum of
the given widths plus one per column for borders when enabled. -/
def Table.effectiveColumnsWidth (t : Table) (widths : List Int) : Int :=
  (widths.foldl (· + ·) 0) + (if t.borders then (widths.length : Int) else 0)

/-- effectiveXOffset mirrors Table.effectiveXOffset: in discrete mode
(columnOffset ≠ -1) the pixel offset is recomputed from the widths of the
skipped scrollable columns plus one separator per skipped column, ignoring
xScroll; in continuous mode it is xScroll itself. (The Go code indexes
columnWidths directly; out-of-range positions contribute 0 here.) -/
def Table.effectiveXOffset (t : Table) (columnWidths : List Int) : Int :=
  if t.columnOffset ≠ -1 then
    (List.range t.columnOffset.toNat).foldl
      (fun acc i => acc + columnWidths.getD (i + t.fixedColumns.toNat) 0) 0
      + t.columnOffset
  else t.xScroll

/-- maximumXOffset mirrors Table.MaximumXOffset, with the inner-rectangle
width passed explicitly: max 0 (scrollable width − (width − fixed width) + 1). -/
def Table.maximumXOffset (t : Table) (width : Int) : Int :=
  let columnWidths := t.calculateColumnWidths
  let fixedColumnsWidth := t.effectiveColumnsWidth (columnWidths.take t.fixedColumns.toNat)
  let effectiveWidth := width - fixedColumnsWidth
  let normalColumnsWidth := t.effectiveColumnsWidth (columnWidths.drop t.fixedColumns.toNat)
  max 0 (normalColumnsWidth - effectiveWidth + 1)

/-- normalColumnLeftRightPositions mirrors the Go helper of the same name:
left and right pixel edges of a scrollable column, right bumped by one when
bordered. -/
def Table.normalColumnLeftRightPositions (t : Table) (columnWidths : List Int)
    (columnIndex : Int) : Int × Int :=
  let left := t.effectiveColumnsWidth
    ((columnWidths.take columnIndex.toNat).drop t.fixedColumns.toNat)
  let right := t.effectiveColumnsWidth
    ((columnWidths.take (columnIndex + 1).toNat).drop t.fixedColumns.toNat)
  (left, if t.borders then right + 1 else right)

/-- evsScanRow is the part of the ensureValidSelection loop that walks the
current row: cells col, col+1, ... are tested until one is selectable or the
column wrap fires. The Go loop wraps after testing col when col+1 >
columnCount-1, i.e. it tests exactly (columnCount-1-col).toNat + 1 cells of
the row; n is that remaining-test count, so n = 0 is the last test before
the wrap. A returned column is the selectable hit; none means the row is
exhausted. -/
def evsScanRow (con : TableContent) (row : Int) : Nat → Int → Option Int
  | 0, col =>
    match con.getCell row col with
    | some cell => if cell.NotSelectable then none else some col
    | none => none
  | n + 1, col =>
    match con.getCell row col with
    | some cell => if cell.NotSelectable then evsScanRow con row n (col + 1) else some col
    | none => evsScanRow con row n (col + 1)

/-- evsLoop is the row-major search loop of ensureValidSelection. The Go
loop runs while selectedRow < rowCount and moves to (row+1, 0) on a column
wrap, so it visits exactly (rowCount - row).toNat rows; m is that count,
making m = 0 the loop's exit (row ≥ rowCount), where the current position
is returned unchanged. -/
def evsLoop (con : TableContent) (columnCount : Int) : Nat → Int → Int → Int × Int
  | 0, row, col => (row, col)
  | m + 1, row, col =>
    match evsScanRow con row (columnCount - 1 - col).toNat col with
    | some foundCol => (row, foundCol)
    | none => evsLoop con columnCount m (row + 1) 0

/-- ensureValidSelection mirrors Table.ensureValidSelection of screenutil.go:
when selection is enabled, clamp a negative selectedRow to 0, run the
row-major search for a selectable cell, then clamp selectedColumn into
[0, columnCount). -/
def Table.ensureValidSelection (t : Table) (rowCount columnCount : Int) : Table :=
  if t.rowsSelectable ∨ t.columnsSelectable then
    let row0 := if t.selectedRow < 0 then 0 else t.selectedRow
    let p := evsLoop t.content columnCount (rowCount - row0).toNat row0 t.selectedColumn
    let sc1 := if p.2 < 0 then 0 else p.2
    let sc2 := if sc1 ≥ columnCount then columnCount - 1 else sc1
    { t with selectedRow := p.1, selectedColumn := sc2 }
  else t

/-- clampRowToSelection is the clampToSelection ∧ rowsSelectable block of
Table.clampOffsets: pull rowOffset up when the selection is above the
scrollable window, then down when it is below, cancelling trackEnd on
either move. -/
def Table.clampRowToSelection (t : Table) (screenHeightRows : Int) : Table :=
  let t1 :=
    if t.selectedRow ≥ t.fixedRows ∧ t.selectedRow < t.fixedRows + t.rowOffset then
      { t with rowOffset := t.selectedRow - t.fixedRows, trackEnd := false }
    else t
  if t1.selectedRow + 1 - t1.rowOffset ≥ screenHeightRows then
    { t1 with rowOffset := t1.selectedRow + 1 - screenHeightRows, trackEnd := false }
  else t1

/-- applyRowBounds is the unconditional row-offset part of Table.clampOffsets:
floor rowOffset at 0, turn trackEnd on when the window already reaches the
last row, let trackEnd override rowOffset, and floor at 0 again. -/
def Table.applyRowBounds (t : Table) (screenHeightRows rowCount : Int) : Table :=
  let t1 := if t.rowOffset < 0 then { t with rowOffset := 0 } else t
  let t2 := if rowCount - t1.rowOffset < screenHeightRows then { t1 with trackEnd := true } else t1
  let t3 := if t2.trackEnd then { t2 with rowOffset := rowCount - screenHeightRows } else t2
  if t3.rowOffset < 0 then { t3 with rowOffset := 0 } else t3

/-- clampColLoop is the inner for-loop of the discrete selection-visibility
correction in Table.clampOffsets: while columnOffset < maxColumnOffset and
the selection's right edge overflows the effective width, advance
columnOffset. n is (maxColumnOffset - columnOffset).toNat, the exact number
of advances still permitted, so n = 0 is the loop's columnOffset ≥
maxColumnOffset break. -/
def clampColLoop (t : Table) (columnWidths : List Int) (effectiveWidth : Int) :
    Nat → Int → Int
  | 0, co => co
  | n + 1, co =>
    let selectionRightEdge := t.effectiveColumnsWidth
      ((columnWidths.take (t.selectedColumn + 1).toNat).drop (t.fixedColumns + co).toNat)
    if selectionRightEdge > effectiveWidth then
      clampColLoop t columnWidths effectiveWidth n (co + 1)
    else co

/-- clampColumnToSelection is the clampToSelection ∧ columnsSelectable block
of Table.clampOffsets: in discrete mode pull columnOffset left when the
selection is left of the window, then walk it right while the selection's
right edge overflows; in continuous mode snap xScroll to the selection's
left or right edge. -/
def Table.clampColumnToSelection (t : Table) (width columnCount : Int) : Table :=
  if t.columnOffset ≠ -1 then
    let t1 :=
      if t.selectedColumn ≥ t.fixedColumns ∧ t.selectedColumn < t.fixedColumns + t.columnOffset then
        { t with columnOffset := t.selectedColumn - t.fixedColumns }
      else t
    if t1.selectedColumn ≥ t1.fixedColumns then
      let columnWidths := t1.calculateColumnWidths
      let effectiveWidth := width - t1.effectiveColumnsWidth (columnWidths.take t1.fixedColumns.toNat)
      let maxColumnOffset := columnCount - t1.fixedColumns - 1
      { t1 with columnOffset := (clampColLoop t1 columnWidths effectiveWidth
          (maxColumnOffset - t1.columnOffset).toNat t1.columnOffset) }
    else t1
  else
    if t.selectedColumn ≥ t.fixedColumns then
      let columnWidths := t.calculateColumnWidths
      let effectiveWidth := width - t.effectiveColumnsWidth (columnWidths.take t.fixedColumns.toNat)
      let lr := t.normalColumnLeftRightPositions columnWidths t.selectedColumn
      if lr.1 - t.xScroll < 0 then { t with xScroll := lr.1 }
      else if lr.2 - t.xScroll > effectiveWidth then { t with xScroll := -(effectiveWidth - lr.2) }
      else t
    else t

/-- applyColumnBounds is the final column-offset part of Table.clampOffsets:
in continuous mode clamp xScroll to [0, maximumXOffset]; in discrete mode
clamp columnOffset to [0, columnCount - fixedColumns - 1]. -/
def Table.applyColumnBounds (t : Table) (width columnCount : Int) : Table :=
  if t.columnOffset = -1 then
    let t1 := { t with xScroll := min (t.maximumXOffset width) t.xScroll }
    { t1 with xScroll := max 0 t1.xScroll }
  else
    let t1 :=
      if t.columnOffset ≥ columnCount - t.fixedColumns then
        { t with columnOffset := columnCount - t.fixedColumns - 1 }
      else t
    if t1.columnOffset < 0 then { t1 with columnOffset := 0 } else t1

/-- clampOffsets mirrors Table.clampOffsets of screenutil.go: the per-draw
offset resolution. With borders every table row takes two screen rows. The
clampToSelection flag is consumed at the end. -/
def Table.clampOffsets (t : Table) (height width rowCount columnCount : Int) : Table :=
  let screenHeightRows := if t.borders then height / 2 else height
  let t1 := if t.clampToSelection ∧ t.rowsSelectable then t.clampRowToSelection screenHeightRows else t
  let t2 := t1.applyRowBounds screenHeightRows rowCount
  let t3 := if t2.clampToSelection ∧ t2.columnsSelectable then t2.clampColumnToSelection width columnCount else t2
  let t4 := t3.applyColumnBounds width columnCount
  { t4 with clampToSelection := false }

/-- msfLoop is the scan loop of Table.moveSelectionForward: test the current
cell, stop with the position when it is selectable, give up when the final
cell is reached, otherwise advance in row-major order wrapping both the
column and the row. The loop diverges in Go when the final cell is
unreachable from the start and nothing is selectable, so it takes fuel;
none is the out-of-fuel (divergent) case, some none the unsuccessful stop,
some (some p) a selectable hit at p. -/
def msfLoop (con : TableContent) (finalRow finalColumn lastColumn rowCount : Int) :
    Nat → Int → Int → Option (Option (Int × Int))
  | 0, _, _ => none
  | n + 1, row, column =>
    match con.getCell row column with
    | some cell =>
      if cell.NotSelectable then
        if row = finalRow ∧ column = finalColumn then some none
        else
          if column + 1 > lastColumn then
            msfLoop con finalRow finalColumn lastColumn rowCount n
              (if row + 1 ≥ rowCount then 0 else row + 1) 0
          else msfLoop con finalRow finalColumn lastColumn rowCount n row (column + 1)
      else some (some (row, column))
    | none =>
      if row = finalRow ∧ column = finalColumn then some none
      else
        if column + 1 > lastColumn then
          msfLoop con finalRow finalColumn lastColumn rowCount n
            (if row + 1 ≥ rowCount then 0 else row + 1) 0
        else msfLoop con finalRow finalColumn lastColumn rowCount n row (column + 1)

/-- msbLoop is the scan loop of Table.moveSelectionBackwards, the mirror of
msfLoop walking in decreasing row-major order. -/
def msbLoop (con : TableContent) (finalRow finalColumn lastColumn rowCount : Int) :
    Nat → Int → Int → Option (Option (Int × Int))
  | 0, _, _ => none
  | n + 1, row, column =>
    match con.getCell row column with
    | some cell =>
      if cell.NotSelectable then
        if row = finalRow ∧ column = finalColumn then some none
        else
          if column - 1 < 0 then
            msbLoop con finalRow finalColumn lastColumn rowCount n
              (if row - 1 < 0 then rowCount - 1 else row - 1) lastColumn
          else msbLoop con finalRow finalColumn lastColumn rowCount n row (column - 1)
      else some (some (row, column))
    | none =>
      if row = finalRow ∧ column = finalColumn then some none
      else
        if column - 1 < 0 then
          msbLoop con finalRow finalColumn lastColumn rowCount n
            (if row - 1 < 0 then rowCount - 1 else row - 1) lastColumn
        else msbLoop con finalRow finalColumn lastColumn rowCount n row (column - 1)

/-- moveSelectionForward mirrors Table.moveSelectionForward: scan forward
from the current selection; on a hit the selection moves there and true is
returned, otherwise the selection is untouched and false is returned. -/
def Table.moveSelectionForward (t : Table) (finalRow finalColumn : Int) (fuel : Nat) :
    Option (Table × Bool) :=
  match msfLoop t.content finalRow finalColumn (t.content.getColumnCount - 1)
      t.content.getRowCount fuel t.selectedRow t.selectedColumn with
  | none => none
  | some none => some (t, false)
  | some (some p) => some ({ t with selectedRow := p.1, selectedColumn := p.2 }, true)

/-- moveSelectionBackwards mirrors Table.moveSelectionBackwards, the
backward mirror of moveSelectionForward. -/
def Table.moveSelectionBackwards (t : Table) (finalRow finalColumn : Int) (fuel : Nat) :
    Option (Table × Bool) :=
  match msbLoop t.content finalRow finalColumn (t.content.getColumnCount - 1)
      t.content.getRowCount fuel t.selectedRow t.selectedColumn with
  | none => none
  | some none => some (t, false)
  | some (some p) => some ({ t with selectedRow := p.1, selectedColumn := p.2 }, true)

/-- navigateDown mirrors Table.navigateDown: bump selectedRow (wrapping or
clamping at the last row), scan forward bounded by the grid end (or by the
tentative cell itself when wrapping), and on failure fall back to a
backward scan whose final cell is the tentative position captured after the
bump. Sets clampToSelection. Without row selection it only bumps rowOffset. -/
def Table.navigateDown (t : Table) (fuel : Nat) : Option Table :=
  if t.rowsSelectable then
    let rowCount := t.content.getRowCount
    let sr1 := t.selectedRow + 1
    let sr2 := if sr1 ≥ rowCount then (if t.wrapVertically then 0 else rowCount - 1) else sr1
    let t1 := { t with selectedRow := sr2 }
    let row := t1.selectedRow
    let column := t1.selectedColumn
    let lastColumn := t1.content.getColumnCount - 1
    let finalRow := if t1.wrapVertically then row else rowCount - 1
    let finalColumn := if t1.wrapVertically then column else lastColumn
    match t1.moveSelectionForward finalRow finalColumn fuel with
    | none => none
    | some (t2, true) => some { t2 with clampToSelection := true }
    | some (t2, false) =>
      match t2.moveSelectionBackwards row column fuel with
      | none => none
      | some (t3, _) => some { t3 with clampToSelection := true }
  else some { t with rowOffset := t.rowOffset + 1 }

/-! Concrete fixtures used by witnesses and counterexamples. -/

/-- tableEmpty is a freshly constructed table (NewTable): empty content,
everything off. -/
def tableEmpty : Table := {}

/-- cellNoSel is a cell marked not selectable. -/
def cellNoSel : TableCell := { NotSelectable := true }

/-- gridOneNoSel is a 1×1 grid whose only cell is not selectable. -/
def gridOneNoSel : TableContent := { cells := [[some cellNoSel]], lastColumn := 0 }

/-- tableOneNoSel is a row-selectable table over gridOneNoSel with the
selection at (0,0). -/
def tableOneNoSel : Table := { content := gridOneNoSel, rowsSelectable := true }

/-- gridOneSel is a 1×1 grid whose only cell is selectable. -/
def gridOneSel : TableContent := { cells := [[some {}]], lastColumn := 0 }

/-- tableOneSel is a row-selectable table over gridOneSel. -/
def tableOneSel : Table := { content := gridOneSel, rowsSelectable := true }

/-- gridRowTwoOnly is the 5-row, 1-column grid of spec scenario 3: row 2
holds the only selectable cell. -/
def gridRowTwoOnly : TableContent :=
  { cells := [[some cellNoSel], [some cellNoSel], [some {}], [some cellNoSel], [some cellNoSel]],
    lastColumn := 0 }

/-- tableRowTwoOnly is a row-selectable, non-wrapping table over
gridRowTwoOnly with the selection at row 0. -/
def tableRowTwoOnly : Table := { content := gridRowTwoOnly, rowsSelectable := true }

/-- gridHundred is a 100-row, 1-column grid of selectable cells. -/
def gridHundred : TableContent :=
  { cells := List.replicate 100 [some {}], lastColumn := 0 }

/-- tableScenario2 is spec scenario 2 just before the draw: 100 rows, rows
selectable, Select(55, 0) done (so clampToSelection is armed). -/
def tableScenario2 : Table :=
  Table.select { content := gridHundred, rowsSelectable := true } 55 0

/-- gridTwoHundred is a 200-row, 1-column grid of selectable cells. -/
def gridTwoHundred : TableContent :=
  { cells := List.replicate 200 [some {}], lastColumn := 0 }

/-- tableTrackEnd is a table that was in trackEnd mode with rowOffset 90
(a draw at 100 rows), after which 100 rows were appended and Select(95, 0)
ran: clampToSelection armed while trackEnd is still set. -/
def tableTrackEnd : Table :=
  Table.select
    { content := gridTwoHundred, rowsSelectable := true, rowOffset := 90, trackEnd := true }
    95 0

/-- gridWide is a 1×1 grid whose cell has cached width 20. -/
def gridWide : TableContent := { cells := [[some { width := 20 }]], lastColumn := 0 }

/-- tableWide is a table over gridWide in continuous-scroll mode with a huge
stored xScroll. -/
def tableWide : Table := { content := gridWide, columnOffset := -1, xScroll := 100 }

/-- cellA and cellB are two distinguishable cells. -/
def cellA : TableCell := { width := 1 }

/-- cellB is the second distinguishable cell, see cellA. -/
def cellB : TableCell := { width := 2 }

/-- gridAB is a 1-row grid holding cellA and cellB, lastColumn 1. -/
def gridAB : TableContent := { cells := [[some cellA, some cellB]], lastColumn := 1 }

/-- gridABIns is gridAB after InsertColumn(0): a default cell precedes
cellA and cellB, while lastColumn is still 1. -/
def gridABIns : TableContent := { cells := [[some {}, some cellA, some cellB]], lastColumn := 1 }

/-! Theorems. -/

/-- C9: setFixed stores the fixed row and column counts and unconditionally
resets columnOffset to 0 (in particular it leaves continuous-scroll mode,
whose sentinel is columnOffset = -1), while rowOffset, xScroll and trackEnd
are untouched. -/
theorem c9_setFixed_resets_columnOffset (t : Table) (rows columns : Int) :
    (t.setFixed rows columns).fixedRows = rows
    ∧ (t.setFixed rows columns).fixedColumns = columns
    ∧ (t.setFixed rows columns).columnOffset = 0
    ∧ (t.setFixed rows columns).rowOffset = t.rowOffset
    ∧ (t.setFixed rows columns).xScroll = t.xScroll
    ∧ (t.setFixed rows columns).trackEnd = t.trackEnd :=
  ⟨rfl, rfl, rfl, rfl, rfl, rfl⟩

/-- C8: SetExpansion with a negative argument panics at the call site and
leaves the cell unchanged (the Bool marks the panic, raised before the
assignment); with a non-negative argument it returns normally having stored
the value. -/
theorem c8_setExpansion_negative_panics (c : TableCell) (e : Int) :
    (e < 0 → TableCell.setExpansion e c = (c, true))
    ∧ (0 ≤ e → TableCell.setExpansion e c = ({ c with Expansion := e }, false)) := by
  constructor
  · intro h
    simp [TableCell.setExpansion, h]
  · intro h
    simp [TableCell.setExpansion, not_lt.mpr h]

/-- Witness for C8 at e = -1 and e = 2 on the default cell. -/
theorem c8_setExpansion_negative_panics_witness :
    TableCell.setExpansion (-1) {} = ({}, true)
    ∧ TableCell.setExpansion 2 {} = ({ ({} : TableCell) with Expansion := 2 }, false) :=
  ⟨(c8_setExpansion_negative_panics {} (-1)).1 (by decide),
   (c8_setExpansion_negative_panics {} 2).2 (by decide)⟩

/-- C4: after setXScroll the discrete column offset reads as the -1
sentinel and layout resolution (effectiveXOffset) yields the stored pixel
offset; after a subsequent setOffset with a non-negative column, the
discrete offset is that column and effectiveXOffset no longer depends on
the stored xScroll — it equals what it is without the setXScroll call. -/
theorem c4_offset_modes_exclusive (t : Table) (x row col : Int) (ws : List Int)
    (hcol : 0 ≤ col) :
    (t.setXScroll x).columnOffset = -1
    ∧ (t.setXScroll x).effectiveXOffset ws = x
    ∧ ((t.setXScroll x).setOffset row col).columnOffset = col
    ∧ ((t.setXScroll x).setOffset row col).effectiveXOffset ws
        = (t.setOffset row col).effectiveXOffset ws := by
  have hne : col ≠ -1 := by omega
  refine ⟨rfl, ?_, rfl, ?_⟩
  · simp [Table.effectiveXOffset, Table.setXScroll]
  · simp [Table.effectiveXOffset, Table.setOffset, Table.setXScroll, hne]

/-- Witness for C4: SetXScroll(5) then SetOffset(0,3) over four columns of
width 2 resolves to the discrete offset 2+2+2+3 = 9, not the pixel offset 5. -/
theorem c4_offset_modes_exclusive_witness :
    (((tableEmpty.setXScroll 5).setOffset 0 3).effectiveXOffset [2, 2, 2, 2] = 9
      ∧ (9 : Int) ≠ 5)
    ∧ ((tableEmpty.setXScroll 5).columnOffset = -1
      ∧ (tableEmpty.setXScroll 5).effectiveXOffset [2, 2, 2, 2] = 5
      ∧ ((tableEmpty.setXScroll 5).setOffset 0 3).columnOffset = 3
      ∧ ((tableEmpty.setXScroll 5).setOffset 0 3).effectiveXOffset [2, 2, 2, 2]
          = (tableEmpty.setOffset 0 3).effectiveXOffset [2, 2, 2, 2]) :=
  ⟨by decide, c4_offset_modes_exclusive tableEmpty 5 0 3 [2, 2, 2, 2] (by decide)⟩

/-- evsLoop starts at a non-negative row and advances the row at most once
per outer step, so its resulting row stays within [0, row + m]. -/
theorem evsLoop_fst_bounds (con : TableContent) (cc : Int) :
    ∀ (m : Nat) (row col : Int), 0 ≤ row →
      0 ≤ (evsLoop con cc m row col).1 ∧ (evsLoop con cc m row col).1 ≤ row + m := by
  intro m
  induction m with
  | zero =>
    intro row col h
    simp only [evsLoop]
    exact ⟨h, by omega⟩
  | succ m ih =>
    intro row col h
    simp only [evsLoop]
    cases hscan : evsScanRow con row (cc - 1 - col).toNat col with
    | some foundCol =>
      dsimp only
      exact ⟨h, by omega⟩
    | none =>
      dsimp only
      have hrec := ih (row + 1) 0 (by omega)
      exact ⟨hrec.1, by omega⟩

/-- C1 (amended): after ensureValidSelection, with selection enabled and a
non-empty grid, the selected column lies in [0, columnCount) and the
selected row lies in [0, rowCount] — one more than the claimed [0,
rowCount): the search loop leaves selectedRow at rowCount itself when no
selectable cell exists at or after the starting position (in particular
when no cell of the grid is selectable), and only the column, not the row,
is clamped afterwards. The bound needs the pre-state row to be at most
rowCount, since an over-range selectedRow is left where it is. -/
theorem c1_selection_validation_bounds (t : Table) (rowCount columnCount : Int)
    (hsel : t.rowsSelectable = true ∨ t.columnsSelectable = true)
    (hrc : 0 < rowCount) (hcc : 0 < columnCount)
    (hsr : t.selectedRow ≤ rowCount) :
    0 ≤ (t.ensureValidSelection rowCount columnCount).selectedRow
    ∧ (t.ensureValidSelection rowCount columnCount).selectedRow ≤ rowCount
    ∧ 0 ≤ (t.ensureValidSelection rowCount columnCount).selectedColumn
    ∧ (t.ensureValidSelection rowCount columnCount).selectedColumn < columnCount := by
  have hcond : (t.rowsSelectable ∨ t.columnsSelectable : Prop) := by
    rcases hsel with h | h
    · exact Or.inl (by simp [h])
    · exact Or.inr (by simp [h])
  unfold Table.ensureValidSelection
  rw [if_pos hcond]
  dsimp only
  have h0 : 0 ≤ (if t.selectedRow < 0 then 0 else t.selectedRow) := by split <;> omega
  have h1 : (if t.selectedRow < 0 then 0 else t.selectedRow) ≤ rowCount := by split <;> omega
  have hb := evsLoop_fst_bounds t.content columnCount
    (rowCount - (if t.selectedRow < 0 then 0 else t.selectedRow)).toNat
    (if t.selectedRow < 0 then 0 else t.selectedRow) t.selectedColumn h0
  have hm : (((rowCount - (if t.selectedRow < 0 then 0 else t.selectedRow)).toNat : Nat) : Int)
      = rowCount - (if t.selectedRow < 0 then 0 else t.selectedRow) :=
    Int.toNat_of_nonneg (by omega)
  refine ⟨hb.1, by omega, ?_, ?_⟩ <;> split_ifs <;> omega

/-- Witness for C1 on a 1×1 grid with a selectable cell. -/
theorem c1_selection_validation_bounds_witness :
    0 ≤ (tableOneSel.ensureValidSelection 1 1).selectedRow
    ∧ (tableOneSel.ensureValidSelection 1 1).selectedRow ≤ 1
    ∧ 0 ≤ (tableOneSel.ensureValidSelection 1 1).selectedColumn
    ∧ (tableOneSel.ensureValidSelection 1 1).selectedColumn < 1 :=
  c1_selection_validation_bounds tableOneSel 1 1 (Or.inl rfl)
    (by decide) (by decide) (by decide)

/-- Counterexample to C1 as stated: on a non-empty 1×1 grid whose only cell
is not selectable, with rows selectable, ensureValidSelection leaves
selectedRow = 1 = rowCount, outside [0, rowCount). -/
theorem c1_selection_validation_bounds_cex :
    tableOneNoSel.rowsSelectable = true
    ∧ tableOneNoSel.content.getRowCount = 1
    ∧ tableOneNoSel.content.getColumnCount = 1
    ∧ (tableOneNoSel.ensureValidSelection 1 1).selectedRow = 1 := by
  decide

/-- C2 (code bug, evaluated at the failing input): on the 5-row grid where
row 2 holds the only selectable cell, with wrap disabled and the selection
at row 0, three navigateDown calls land on rows 2, 3 and 4 — not on row 2
each time as the spec requires. The second and third calls leave the
selection on a NotSelectable cell and move it even though no selectable
cell exists in the scanned range, because the backward fallback scan is
bounded by the tentative position it starts from, so it can never move. -/
theorem c2_navigate_down_skips_cex :
    (tableRowTwoOnly.navigateDown 100).map Table.selectedRow = some 2
    ∧ ((tableRowTwoOnly.navigateDown 100).bind (fun t => t.navigateDown 100)).map
        Table.selectedRow = some 3
    ∧ (((tableRowTwoOnly.navigateDown 100).bind (fun t => t.navigateDown 100)).bind
        (fun t => t.navigateDown 100)).map Table.selectedRow = some 4
    ∧ gridRowTwoOnly.getCell 3 0 = some cellNoSel
    ∧ cellNoSel.NotSelectable = true := by
  decide

/-- clampColumnToSelection never touches the row offset. -/
theorem clampColumnToSelection_rowOffset (t : Table) (width columnCount : Int) :
    (t.clampColumnToSelection width columnCount).rowOffset = t.rowOffset := by
  unfold Table.clampColumnToSelection
  dsimp only
  split_ifs <;> rfl

/-- applyColumnBounds never touches the row offset. -/
theorem applyColumnBounds_rowOffset (t : Table) (width columnCount : Int) :
    (t.applyColumnBounds width columnCount).rowOffset = t.rowOffset := by
  unfold Table.applyColumnBounds
  dsimp only
  split_ifs <;> rfl

/-- row_phase_visibility: the row part of clampOffsets (selection clamp then
bounds) keeps the selected row inside the window [rowOffset, rowOffset +
screenHeightRows) and the offset inside [0, max 0 (rowCount −
screenHeightRows)], provided trackEnd is clear on entry, there are no fixed
rows, and the selection is in range. -/
theorem row_phase_visibility (t : Table) (shr rc : Int)
    (hte : t.trackEnd = false) (hfix : t.fixedRows = 0) (hh : 0 < shr)
    (h0 : 0 ≤ t.selectedRow) (h1 : t.selectedRow < rc) :
    ((t.clampRowToSelection shr).applyRowBounds shr rc).rowOffset ≤ t.selectedRow
    ∧ t.selectedRow < ((t.clampRowToSelection shr).applyRowBounds shr rc).rowOffset + shr
    ∧ 0 ≤ ((t.clampRowToSelection shr).applyRowBounds shr rc).rowOffset
    ∧ ((t.clampRowToSelection shr).applyRowBounds shr rc).rowOffset ≤ max 0 (rc - shr) := by
  obtain ⟨con, fr, fc, rs, cs, sr, sc, cl, wh, wv, ro, co, xs, te, vr, bo⟩ := t
  dsimp only at hte hfix h0 h1
  subst hte hfix
  unfold Table.clampRowToSelection Table.applyRowBounds
  simp only [apply_ite Table.rowOffset, apply_ite Table.selectedRow, apply_ite Table.trackEnd,
    ite_self, Bool.false_eq_true, if_false]
  split_ifs <;> try omega
  all_goals (exfalso; simp_all)

/-- C3 (amended): with rows selectable and clampToSelection set, and
provided trackEnd is clear on entry and there are no fixed rows, the
per-draw offset resolution (borderless, positive viewport height, selection
in range) moves rowOffset just enough that selectedRow falls inside
[rowOffset, rowOffset + height) and clamps it into
[0, max 0 (rowCount − height)]. A pre-set trackEnd overrides the clamp
(see the counterexample), which is what the claim omits. -/
theorem c3_row_clamp_visibility (t : Table) (height width rowCount columnCount : Int)
    (hclamp : t.clampToSelection = true) (hrows : t.rowsSelectable = true)
    (hte : t.trackEnd = false) (hfix : t.fixedRows = 0) (hbord : t.borders = false)
    (hh : 0 < height) (h0 : 0 ≤ t.selectedRow) (h1 : t.selectedRow < rowCount) :
    (t.clampOffsets height width rowCount columnCount).rowOffset ≤ t.selectedRow
    ∧ t.selectedRow < (t.clampOffsets height width rowCount columnCount).rowOffset + height
    ∧ 0 ≤ (t.clampOffsets height width rowCount columnCount).rowOffset
    ∧ (t.clampOffsets height width rowCount columnCount).rowOffset
        ≤ max 0 (rowCount - height) := by
  have hchain : (t.clampOffsets height width rowCount columnCount).rowOffset
      = ((t.clampRowToSelection height).applyRowBounds height rowCount).rowOffset := by
    unfold Table.clampOffsets
    dsimp only
    simp only [hbord, hclamp, hrows, Bool.false_eq_true, if_false, and_self, if_true]
    rw [applyColumnBounds_rowOffset]
    split
    · rw [clampColumnToSelection_rowOffset]
    · rfl
  rw [hchain]
  exact row_phase_visibility t height rowCount hte hfix hh h0 h1

/-- Witness for C3, spec scenario 2: 100 rows, one column, viewport height
10, Select(55, 0), borderless: rowOffset resolves to exactly 46 and the
selection is inside the window. -/
theorem c3_row_clamp_visibility_witness :
    (tableScenario2.clampOffsets 10 20 100 1).rowOffset = 46
    ∧ ((tableScenario2.clampOffsets 10 20 100 1).rowOffset ≤ tableScenario2.selectedRow
      ∧ tableScenario2.selectedRow < (tableScenario2.clampOffsets 10 20 100 1).rowOffset + 10
      ∧ 0 ≤ (tableScenario2.clampOffsets 10 20 100 1).rowOffset
      ∧ (tableScenario2.clampOffsets 10 20 100 1).rowOffset ≤ max 0 (100 - 10)) :=
  ⟨by decide,
   c3_row_clamp_visibility tableScenario2 10 20 100 1 (by decide) (by decide) (by decide)
     (by decide) (by decide) (by decide) (by decide) (by decide)⟩

set_option maxRecDepth 4000 in
/-- Counterexample to C3 as stated: rows selectable, clampToSelection set,
selection at row 95 of 200 in range, viewport height 10 — but trackEnd is
still set from an earlier scroll-to-end (rowOffset 90 from a draw at 100
rows, then 100 rows appended and Select(95,0) called). The resolution sets
rowOffset = 190, scrolling the selected row 95 out of the visible window
instead of keeping it inside. -/
theorem c3_row_clamp_visibility_cex :
    tableTrackEnd.clampToSelection = true
    ∧ tableTrackEnd.rowsSelectable = true
    ∧ tableTrackEnd.selectedRow = 95
    ∧ tableTrackEnd.content.getRowCount = 200
    ∧ (tableTrackEnd.clampOffsets 10 20 200 1).rowOffset = 190
    ∧ ¬((tableTrackEnd.clampOffsets 10 20 200 1).rowOffset ≤ 95
        ∧ (95 : Int) < (tableTrackEnd.clampOffsets 10 20 200 1).rowOffset + 10) := by
  decide

/-- clampRowToSelection only rewrites rowOffset and trackEnd. -/
theorem clampRowToSelection_shape (t : Table) (shr : Int) :
    ∃ ro te, t.clampRowToSelection shr = { t with rowOffset := ro, trackEnd := te } := by
  unfold Table.clampRowToSelection
  dsimp only
  split_ifs <;> exact ⟨_, _, rfl⟩

/-- applyRowBounds only rewrites rowOffset and trackEnd. -/
theorem applyRowBounds_shape (t : Table) (shr rc : Int) :
    ∃ ro te, t.applyRowBounds shr rc = { t with rowOffset := ro, trackEnd := te } := by
  unfold Table.applyRowBounds
  dsimp only
  split_ifs <;> exact ⟨_, _, rfl⟩

/-- row_phases_shape: the whole row part of clampOffsets (optional selection
clamp, then bounds) only rewrites rowOffset and trackEnd. -/
theorem row_phases_shape (t : Table) (c : Prop) [Decidable c] (shr rc : Int) :
    ∃ ro te, ((if c then t.clampRowToSelection shr else t).applyRowBounds shr rc)
      = { t with rowOffset := ro, trackEnd := te } := by
  by_cases hc : c
  · rw [if_pos hc]
    obtain ⟨a, b, hab⟩ := clampRowToSelection_shape t shr
    rw [hab]
    obtain ⟨d, e, hde⟩ := applyRowBounds_shape { t with rowOffset := a, trackEnd := b } shr rc
    rw [hde]
    exact ⟨d, e, rfl⟩
  · rw [if_neg hc]
    exact applyRowBounds_shape t shr rc

/-- clampColumnToSelection in continuous mode only rewrites xScroll. -/
theorem clampColumnToSelection_continuous (t : Table) (width columnCount : Int)
    (h : t.columnOffset = -1) :
    ∃ xs, t.clampColumnToSelection width columnCount = { t with xScroll := xs } := by
  unfold Table.clampColumnToSelection
  rw [if_neg (by simp [h])]
  dsimp only
  split_ifs <;> exact ⟨_, rfl⟩

/-- applyColumnBounds in continuous mode clamps xScroll to
[0, maximumXOffset] and touches nothing else. -/
theorem applyColumnBounds_continuous (t : Table) (width columnCount : Int)
    (h : t.columnOffset = -1) :
    t.applyColumnBounds width columnCount
      = { t with xScroll := max 0 (min (t.maximumXOffset width) t.xScroll) } := by
  unfold Table.applyColumnBounds
  rw [if_pos h]

/-- maximumXOffset is never negative. -/
theorem maximumXOffset_nonneg (t : Table) (width : Int) : 0 ≤ t.maximumXOffset width := by
  unfold Table.maximumXOffset
  dsimp only
  exact le_max_left _ _

/-- C5 (amended): in continuous-scroll mode the per-draw offset resolution
keeps the mode and clamps xScroll into [0, maximumXOffset], where
maximumXOffset = max 0 (totalScrollableWidth − viewportWidth + 1): one
MORE than the claimed totalScrollableWidth − viewportWidth (the source's
MaximumXOffset carries a +1). -/
theorem c5_xscroll_clamped (t : Table) (height width rowCount columnCount : Int)
    (hco : t.columnOffset = -1) :
    (t.clampOffsets height width rowCount columnCount).columnOffset = -1
    ∧ 0 ≤ (t.clampOffsets height width rowCount columnCount).xScroll
    ∧ (t.clampOffsets height width rowCount columnCount).xScroll
        ≤ t.maximumXOffset width := by
  unfold Table.clampOffsets
  dsimp only
  obtain ⟨ro, te, hrow⟩ := row_phases_shape t
    (t.clampToSelection ∧ t.rowsSelectable)
    (if t.borders then height / 2 else height) rowCount
  rw [hrow]
  have hco2 : (Table.columnOffset { t with rowOffset := ro, trackEnd := te }) = -1 := hco
  have hM : 0 ≤ t.maximumXOffset width := maximumXOffset_nonneg t width
  by_cases hc2 : (({ t with rowOffset := ro, trackEnd := te } : Table).clampToSelection
      ∧ ({ t with rowOffset := ro, trackEnd := te } : Table).columnsSelectable : Prop)
  · rw [if_pos hc2]
    obtain ⟨xs2, hxs⟩ := clampColumnToSelection_continuous
      { t with rowOffset := ro, trackEnd := te } width columnCount hco2
    rw [hxs]
    rw [applyColumnBounds_continuous
      ({ t with rowOffset := ro, trackEnd := te, xScroll := xs2 }) width columnCount
      (show ({ t with rowOffset := ro, trackEnd := te, xScroll := xs2 } : Table).columnOffset
        = -1 from hco)]
    exact ⟨hco, le_max_left _ _, max_le hM (min_le_left _ _)⟩
  · rw [if_neg hc2]
    rw [applyColumnBounds_continuous
      ({ t with rowOffset := ro, trackEnd := te }) width columnCount hco2]
    exact ⟨hco, le_max_left _ _, max_le hM (min_le_left _ _)⟩

/-- Witness for C5 on a concrete continuous-mode table: one scrollable
column of width 20, inner width 10, so maximumXOffset = 11, and the stored
xScroll 100 resolves to a value inside [0, 11]. -/
theorem c5_xscroll_clamped_witness :
    tableWide.maximumXOffset 10 = 11
    ∧ ((tableWide.clampOffsets 5 10 1 1).columnOffset = -1
      ∧ 0 ≤ (tableWide.clampOffsets 5 10 1 1).xScroll
      ∧ (tableWide.clampOffsets 5 10 1 1).xScroll ≤ tableWide.maximumXOffset 10) :=
  ⟨by decide, c5_xscroll_clamped tableWide 5 10 1 1 (by decide)⟩

/-- Counterexample to C5 as stated: total scrollable width 20, viewport
width 10, stored xScroll 100. After resolution xScroll = 11, which exceeds
the claimed upper bound totalScrollableWidth − viewportWidth = 10. -/
theorem c5_xscroll_clamped_cex :
    tableWide.columnOffset = -1
    ∧ (tableWide.clampOffsets 5 10 1 1).xScroll = 11
    ∧ ¬((tableWide.clampOffsets 5 10 1 1).xScroll ≤ 20 - 10) := by
  decide

/-- insertAtIdx on a cons with a positive index steps structurally. -/
theorem insertAtIdx_cons_succ (x : α) (xs : List α) (i : Nat) (a : α) :
    insertAtIdx (x :: xs) (i + 1) a = x :: insertAtIdx xs i a := by
  simp [insertAtIdx]

/-- removeAtIdx on a cons with a positive index steps structurally. -/
theorem removeAtIdx_cons_succ (x : α) (xs : List α) (i : Nat) :
    removeAtIdx (x :: xs) (i + 1) = x :: removeAtIdx xs i := by
  simp [removeAtIdx]

/-- removeAtIdx undoes insertAtIdx at the same in-range position. -/
theorem removeAtIdx_insertAtIdx (a : α) :
    ∀ (i : Nat) (l : List α), i ≤ l.length → removeAtIdx (insertAtIdx l i a) i = l
  | 0, l, _ => by simp [insertAtIdx, removeAtIdx]
  | i + 1, [], h => by simp at h
  | i + 1, x :: xs, h => by
    rw [insertAtIdx_cons_succ, removeAtIdx_cons_succ,
      removeAtIdx_insertAtIdx a i xs (by simpa using h)]

/-- insertAtIdx at an in-range position grows the length by one. -/
theorem length_insertAtIdx (l : List α) (i : Nat) (a : α) (h : i ≤ l.length) :
    (insertAtIdx l i a).length = l.length + 1 := by
  simp [insertAtIdx]
  omega

/-- Reading past an insertion point sees the original element one position
earlier. -/
theorem getD_insertAtIdx_succ (a d : α) :
    ∀ (i : Nat) (l : List α) (j : Nat), i ≤ j →
      (insertAtIdx l i a).getD (j + 1) d = l.getD j d
  | 0, l, j, _ => by simp [insertAtIdx]
  | i + 1, [], j, h => by
    have h1 : insertAtIdx ([] : List α) (i + 1) a = [a] := by simp [insertAtIdx]
    rw [h1]
    have h2 : 1 ≤ j + 1 := by omega
    simp [List.getD_eq_default, h2]
  | i + 1, x :: xs, j, h => by
    obtain ⟨j', rfl⟩ : ∃ j', j = j' + 1 := ⟨j - 1, by omega⟩
    rw [insertAtIdx_cons_succ]
    simpa using getD_insertAtIdx_succ a d i xs j' (by omega)

/-- Mapping one function after another is the identity when they cancel
pointwise. -/
theorem map_map_cancel (f g : α → α) (h : ∀ a, f (g a) = a) :
    ∀ l : List α, (l.map g).map f = l
  | [] => rfl
  | x :: xs => by
    simp only [List.map_cons]
    rw [h x, map_map_cancel f g h xs]

/-- C6 (amended): for 0 ≤ c, InsertColumn(c) followed by RemoveColumn(c)
restores every cell (so every GetCell observation and the row count are
unchanged) — but NOT the reported column count: RemoveColumn decrements the
tracked lastColumn whenever c ≤ lastColumn while InsertColumn never
incremented it, so GetColumnCount shrinks by one in that case (and is
unchanged only when c lies beyond lastColumn). -/
theorem c6_insert_remove_column_roundtrip (g : TableContent) (c : Int) (hc : 0 ≤ c) :
    ∃ g', g.insertColumn c = some g'
      ∧ (g'.removeColumn c).cells = g.cells
      ∧ (g'.removeColumn c).getRowCount = g.getRowCount
      ∧ (∀ r col : Int, (g'.removeColumn c).getCell r col = g.getCell r col)
      ∧ (g'.removeColumn c).lastColumn
          = (if c ≤ g.lastColumn then g.lastColumn - 1 else g.lastColumn)
      ∧ (g.cells ≠ [] →
          (g'.removeColumn c).getColumnCount
            = (if c ≤ g.lastColumn then g.getColumnCount - 1 else g.getColumnCount))
      ∧ (∀ rr : Int, 0 ≤ rr → rr < g.getRowCount →
          (g.insertRow rr).map (TableContent.removeRow rr) = some g) := by
  have hins : g.insertColumn c
      = some ⟨g.cells.map (fun r =>
          if ((r.length : Nat) : Int) ≤ c then r else insertAtIdx r c.toNat (some {})),
          g.lastColumn⟩ := by
    unfold TableContent.insertColumn
    rw [if_neg (by omega)]
  refine ⟨_, hins, ?_⟩
  have hcells : (TableContent.removeColumn c
      ⟨g.cells.map (fun r =>
        if ((r.length : Nat) : Int) ≤ c then r else insertAtIdx r c.toNat (some {})),
        g.lastColumn⟩).cells = g.cells := by
    unfold TableContent.removeColumn
    dsimp only
    have hrow : ∀ r : List (Option TableCell),
        (fun r =>
          if c < 0 ∨ c ≥ ((r.length : Nat) : Int) then r else removeAtIdx r c.toNat)
          ((fun r =>
            if ((r.length : Nat) : Int) ≤ c then r else insertAtIdx r c.toNat (some {})) r)
          = r := by
      intro r
      dsimp only
      by_cases hlen : ((r.length : Nat) : Int) ≤ c
      · rw [if_pos hlen]
        exact if_pos (Or.inr hlen)
      · rw [if_neg hlen]
        have hcn : c.toNat ≤ r.length := by omega
        have hlen2 : (((insertAtIdx r c.toNat (some ({} : TableCell))).length : Nat) : Int)
            = (r.length : Int) + 1 := by
          rw [length_insertAtIdx _ _ _ hcn]
          push_cast
          ring
        rw [if_neg (by omega)]
        exact removeAtIdx_insertAtIdx _ _ _ hcn
    exact map_map_cancel _ _ hrow g.cells
  have hlc : (TableContent.removeColumn c
      ⟨g.cells.map (fun r =>
        if ((r.length : Nat) : Int) ≤ c then r else insertAtIdx r c.toNat (some {})),
        g.lastColumn⟩).lastColumn
      = (if c ≤ g.lastColumn then g.lastColumn - 1 else g.lastColumn) := by
    unfold TableContent.removeColumn
    dsimp only
    by_cases h : c ≤ g.lastColumn
    · rw [if_pos ⟨hc, h⟩, if_pos h]
    · rw [if_neg (by omega), if_neg h]
  refine ⟨hcells, ?_, ?_, hlc, ?_, ?_⟩
  · unfold TableContent.getRowCount
    rw [hcells]
  · intro r col
    unfold TableContent.getCell
    rw [hcells]
  · intro hne
    unfold TableContent.getColumnCount
    rw [hcells, hlc]
    have hlen : ¬(g.cells.length = 0) := by simpa using hne
    simp only [if_neg hlen]
    split_ifs <;> omega
  · intro rr hr0 hr1
    unfold TableContent.getRowCount at hr1
    unfold TableContent.insertRow
    rw [if_neg (by omega), if_neg (by omega)]
    have hlenIR : ((insertAtIdx g.cells rr.toNat ([] : List (Option TableCell))).length : Int)
        = (g.cells.length : Int) + 1 := by
      rw [length_insertAtIdx _ _ _ (by omega)]
      push_cast
      ring
    unfold TableContent.removeRow
    dsimp only [Option.map]
    rw [if_neg (by rw [hlenIR]; omega), removeAtIdx_insertAtIdx _ _ _ (by omega)]

/-- Witness for C6 on the 1×2 grid at c = 0. -/
theorem c6_insert_remove_column_roundtrip_witness :
    ∃ g', gridAB.insertColumn 0 = some g'
      ∧ (g'.removeColumn 0).cells = gridAB.cells
      ∧ (g'.removeColumn 0).getRowCount = gridAB.getRowCount
      ∧ (∀ r col : Int, (g'.removeColumn 0).getCell r col = gridAB.getCell r col)
      ∧ (g'.removeColumn 0).lastColumn
          = (if (0 : Int) ≤ gridAB.lastColumn then gridAB.lastColumn - 1 else gridAB.lastColumn)
      ∧ (gridAB.cells ≠ [] →
          (g'.removeColumn 0).getColumnCount
            = (if (0 : Int) ≤ gridAB.lastColumn then gridAB.getColumnCount - 1
               else gridAB.getColumnCount))
      ∧ (∀ rr : Int, 0 ≤ rr → rr < gridAB.getRowCount →
          (gridAB.insertRow rr).map (TableContent.removeRow rr) = some gridAB) :=
  c6_insert_remove_column_roundtrip gridAB 0 (by decide)

/-- Counterexample to C6 as stated: on the 1-row grid holding cellA and
cellB, InsertColumn(0) then RemoveColumn(0) restores the cell contents
exactly, yet GetColumnCount drops from 2 to 1 — the observable dimensions
are NOT unchanged. -/
theorem c6_insert_remove_column_roundtrip_cex :
    gridAB.getColumnCount = 2
    ∧ (gridAB.insertColumn 0).map (fun g => (g.removeColumn 0).getColumnCount) = some 1
    ∧ (gridAB.insertColumn 0).map (fun g => (g.removeColumn 0).cells) = some gridAB.cells := by
  decide

/-- C7 (amended): RemoveRow and RemoveColumn never panic and are silent
no-ops for out-of-range arguments (negative included); InsertRow and
InsertColumn are silent no-ops for arguments at or beyond the current
bounds and run normally for non-negative arguments — but a NEGATIVE
argument to either insert operation panics (Go slice-bounds violation in
the copy shift), rather than being ignored. -/
theorem c7_structural_mutators_out_of_range (g : TableContent) :
    (∀ r : Int, (r < 0 ∨ r ≥ g.getRowCount) → g.removeRow r = g)
    ∧ (∀ c : Int, c < 0 → g.removeColumn c = g)
    ∧ (∀ c : Int, g.lastColumn < c → (∀ row ∈ g.cells, ((row.length : Nat) : Int) ≤ c) →
        g.removeColumn c = g)
    ∧ (∀ r : Int, r ≥ g.getRowCount → g.insertRow r = some g)
    ∧ (∀ r : Int, 0 ≤ r → (g.insertRow r).isSome = true)
    ∧ (∀ c : Int, 0 ≤ c → (g.insertColumn c).isSome = true)
    ∧ (∀ c : Int, 0 ≤ c → (∀ row ∈ g.cells, ((row.length : Nat) : Int) ≤ c) →
        g.insertColumn c = some g) := by
  obtain ⟨cells, lc⟩ := g
  refine ⟨?_, ?_, ?_, ?_, ?_, ?_, ?_⟩
  · intro r hr
    unfold TableContent.removeRow
    exact if_pos hr
  · intro c hc
    unfold TableContent.removeColumn
    dsimp only
    rw [if_neg (by omega), List.map_congr_left (fun r _ => if_pos (Or.inl hc)), List.map_id']
  · intro c hlc hrows
    dsimp only at hlc
    unfold TableContent.removeColumn
    dsimp only
    rw [if_neg (by omega),
      List.map_congr_left (fun r hr => if_pos (Or.inr (hrows r hr))), List.map_id']
  · intro r hr
    unfold TableContent.insertRow
    exact if_pos hr
  · intro r hr
    unfold TableContent.insertRow
    dsimp only
    split_ifs with h1 h2
    · rfl
    · omega
    · rfl
  · intro c hc
    unfold TableContent.insertColumn
    rw [if_neg (by omega)]
    rfl
  · intro c hc hrows
    unfold TableContent.insertColumn
    dsimp only
    rw [if_neg (by omega),
      List.map_congr_left (fun r hr => if_pos (hrows r hr)), List.map_id']

/-- Witness for C7 on the 1×2 grid: out-of-range removes and inserts are
no-ops, in-range and beyond-bounds inserts return normally. -/
theorem c7_structural_mutators_out_of_range_witness :
    gridAB.removeRow 5 = gridAB
    ∧ gridAB.removeColumn (-3) = gridAB
    ∧ gridAB.removeColumn 7 = gridAB
    ∧ gridAB.insertRow 1 = some gridAB
    ∧ (gridAB.insertRow 0).isSome = true
    ∧ (gridAB.insertColumn 0).isSome = true
    ∧ gridAB.insertColumn 7 = some gridAB :=
  ⟨(c7_structural_mutators_out_of_range gridAB).1 5 (Or.inr (by decide)),
   (c7_structural_mutators_out_of_range gridAB).2.1 (-3) (by decide),
   (c7_structural_mutators_out_of_range gridAB).2.2.1 7 (by decide) (by decide),
   (c7_structural_mutators_out_of_range gridAB).2.2.2.1 1 (by decide),
   (c7_structural_mutators_out_of_range gridAB).2.2.2.2.1 0 (by decide),
   (c7_structural_mutators_out_of_range gridAB).2.2.2.2.2.1 0 (by decide),
   (c7_structural_mutators_out_of_range gridAB).2.2.2.2.2.2 7 (by decide) (by decide)⟩

/-- Counterexample to C7 as stated: InsertRow(-1) and InsertColumn(-1) on a
non-empty grid panic (none models the Go slice-bounds panic) instead of
being silent no-ops. -/
theorem c7_structural_mutators_out_of_range_cex :
    gridAB.insertRow (-1) = none ∧ gridAB.insertColumn (-1) = none := by
  decide

/-- getD over a map commutes with the function when the function fixes the
default. -/
theorem getD_map_pointfix (f : α → α) (d : α) (hd : f d = d) :
    ∀ (l : List α) (i : Nat), (l.map f).getD i d = f (l.getD i d)
  | [], i => by simp [hd]
  | x :: xs, 0 => by simp
  | x :: xs, i + 1 => by
    simp only [List.map_cons, List.getD_cons_succ]
    exact getD_map_pointfix f d hd xs i

/-- C10: InsertColumn(c) (0 ≤ c) never changes GetColumnCount — the tracked
lastColumn is not incremented — even though in every row longer than c the
cells at or right of c are shifted one position to the right (GetCell at
j+1 afterwards sees the cell that was at j). In particular a cell that was
at the last reported column moves to an index no longer covered by
GetColumnCount. -/
theorem c10_insertColumn_preserves_columnCount (g : TableContent) (c : Int) (hc : 0 ≤ c)
    (g' : TableContent) (h : g.insertColumn c = some g') :
    g'.getColumnCount = g.getColumnCount
    ∧ ∀ r j : Int, 0 ≤ r → c ≤ j →
        c < (((g.cells.getD r.toNat []).length : Nat) : Int) →
        g'.getCell r (j + 1) = g.getCell r j := by
  have hsome : g' = ⟨g.cells.map (fun r =>
      if ((r.length : Nat) : Int) ≤ c then r else insertAtIdx r c.toNat (some {})),
      g.lastColumn⟩ := by
    have hins : g.insertColumn c
        = some ⟨g.cells.map (fun r =>
            if ((r.length : Nat) : Int) ≤ c then r else insertAtIdx r c.toNat (some {})),
            g.lastColumn⟩ := by
      unfold TableContent.insertColumn
      rw [if_neg (by omega)]
    rw [hins] at h
    exact (Option.some.inj h).symm
  subst hsome
  constructor
  · unfold TableContent.getColumnCount
    dsimp only
    rw [List.length_map]
  · intro r j hr hj hlen
    have hrlt : r < (g.cells.length : Int) := by
      by_contra hge
      have hdef : g.cells.getD r.toNat [] = [] :=
        List.getD_eq_default _ _ (by omega)
      rw [hdef] at hlen
      simp at hlen
      omega
    have hcle : c.toNat ≤ (g.cells.getD r.toNat []).length := by omega
    have hlenIns : (((insertAtIdx (g.cells.getD r.toNat []) c.toNat
        (some ({} : TableCell))).length : Nat) : Int)
        = (((g.cells.getD r.toNat []).length : Nat) : Int) + 1 := by
      rw [length_insertAtIdx _ _ _ hcle]
      push_cast
      ring
    unfold TableContent.getCell
    dsimp only
    rw [getD_map_pointfix _ _ (by rw [if_pos (by simpa using hc)]) g.cells r.toNat]
    rw [if_neg (by omega : ¬((((g.cells.getD r.toNat []).length : Nat) : Int) ≤ c))]
    rw [List.length_map]
    by_cases hend : j ≥ (((g.cells.getD r.toNat []).length : Nat) : Int)
    · rw [if_pos (Or.inr (Or.inr (Or.inr (by rw [hlenIns]; omega)))),
        if_pos (Or.inr (Or.inr (Or.inr hend)))]
    · rw [if_neg (by rw [hlenIns]; push_neg; exact ⟨by omega, by omega, by omega, by omega⟩),
        if_neg (by push_neg; exact ⟨by omega, by omega, by omega, by omega⟩)]
      have htn : (j + 1).toNat = j.toNat + 1 := by omega
      rw [htn]
      exact getD_insertAtIdx_succ _ _ _ _ _ (by omega)

/-- Witness for C10 on the 1×2 grid at c = 0: the column count is unchanged
and the cell that was at column 1 is read back at column 2. -/
theorem c10_insertColumn_preserves_columnCount_witness :
    gridABIns.getColumnCount = gridAB.getColumnCount
    ∧ gridABIns.getCell 0 2 = gridAB.getCell 0 1 :=
  ⟨(c10_insertColumn_preserves_columnCount gridAB 0 (by decide) gridABIns (by decide)).1,
   (c10_insertColumn_preserves_columnCount gridAB 0 (by decide) gridABIns (by decide)).2
     0 1 (by decide) (by decide) (by decide)⟩

end NuviewTable
